import Mathlib

/-
  Shallow embedding of the GuideBot repository (guide.py and bot.py).
  Coordinates are exact rationals; the haversine function and the other
  external library calls (networkx shortest_path, osmnx truncate/get_nearest_edge/
  get_bearing, Nominatim geocode) are parameters, since they are third-party
  dependencies, not code of this repository.  Python dictionaries with optional
  keys become structures of Option fields; Python exceptions become an explicit
  error component that is threaded together with the mutated state, so that
  messages already sent and dictionary mutations already performed survive a
  later exception, exactly as in the running bot.
-/

namespace GuideBot

abbrev Point : Type := ℚ × ℚ

/-- Kernel-reducible floor of a rational. -/
def qfloor (q : ℚ) : ℤ := Int.fdiv q.num q.den

/-- Python round(): round-half-to-even on an exact rational, returning an integer. -/
def pythonRound (q : ℚ) : ℤ :=
  if q - qfloor q < 1/2 then qfloor q
  else if (1 : ℚ)/2 < q - qfloor q then qfloor q + 1
  else if qfloor q % 2 = 0 then qfloor q else qfloor q + 1

/-- Python float modulo: for a positive modulus the result lies in [0, b). -/
def qmod (a b : ℚ) : ℚ := a - b * qfloor (a / b)

/-- Python list indexing with negative-index support; none models IndexError. -/
def pyGet {α : Type} (l : List α) (i : ℤ) : Option α :=
  if 0 ≤ i then l.get? i.toNat
  else if (-i).toNat ≤ l.length then l.get? (l.length - (-i).toNat)
  else none

/-- guide.py constant: maximum radius used to look for the nearest edge. -/
def FIND_DST : ℚ := 1000

/-- guide.py constant: snap distances at or beyond this bound fail the assert. -/
def FARTHEST_NODE : ℚ := 2000

/-- bot.py constant: checkpoint-reached radius in meters. -/
def NEAR_DST : ℤ := 20

/-- bot.py constant: drift-warning slack in meters. -/
def AWAY_DST : ℚ := 80

/-- bot.py constant: lost-suggest-recompute slack in meters. -/
def FAR_AWAY_DST : ℚ := 250

/-- bot.py constant: inactivity threshold in seconds. -/
def MAX_TIME : ℚ := 240

/-- bot.py constant: maximum checkpoints the user can skip in one update. -/
def N : ℕ := 3

/-- Node identifiers: real OSM nodes plus the three temporary string keys that
get_directions splices into the graph. -/
inductive NodeId where
  | osm (n : ℕ)
  | srcNode
  | dstNode
  | endNode
deriving DecidableEq

/-- Attributes of one edge of the street multidigraph (only the keys the code reads). -/
structure EdgeData where
  osmid : Option ℤ := none
  length : Option ℚ := none
  bearing : Option ℚ := none
  name : Option (String ⊕ List String) := none
deriving DecidableEq

def EdgeData.empty : EdgeData := {}

/-- The street network: nodes carry an optional (x, y) coordinate pair (none models
an attribute dictionary without coordinates, as for the imaginary terminal node),
edges are kept in insertion order so that key=0 lookups return the first edge. -/
structure Graph where
  nodes : List (NodeId × Option Point)
  edges : List (NodeId × NodeId × EdgeData)
deriving DecidableEq

def Graph.ids (g : Graph) : List NodeId := g.nodes.map Prod.fst

def Graph.hasNode (g : Graph) (i : NodeId) : Bool :=
  g.nodes.any fun q => decide (q.1 = i)

/-- networkx add_node: updates the attributes of an existing node, appends otherwise. -/
def Graph.addNode (g : Graph) (i : NodeId) (p : Option Point) : Graph :=
  if g.hasNode i then
    { g with nodes := g.nodes.map fun q =>
        if q.1 = i then (i, match p with | some pt => some pt | none => q.2) else q }
  else { g with nodes := g.nodes ++ [(i, p)] }

def Graph.lookupNode (g : Graph) (i : NodeId) : Option (Option Point) :=
  (g.nodes.find? fun q => decide (q.1 = i)).map Prod.snd

/-- networkx get_edge_data(u, v, key=0): the first edge from u to v, if any. -/
def Graph.getEdgeData (g : Graph) (u v : NodeId) : Option EdgeData :=
  (g.edges.find? fun e => decide (e.1 = u) && decide (e.2.1 = v)).map fun e => e.2.2

/-- networkx add_edge: missing endpoints are created with an empty attribute dict. -/
def Graph.addEdgeNX (g : Graph) (u v : NodeId) (d : EdgeData) : Graph :=
  let g1 := if g.hasNode u then g else { g with nodes := g.nodes ++ [(u, none)] }
  let g2 := if g1.hasNode v then g1 else { g1 with nodes := g1.nodes ++ [(v, none)] }
  { g2 with edges := g2.edges ++ [(u, v, d)] }

def removeEdgesAux (u v : NodeId) : List (NodeId × NodeId × EdgeData) → List (NodeId × NodeId × EdgeData)
  | [] => []
  | e :: rest => if e.1 = u ∧ e.2.1 = v then rest else e :: removeEdgesAux u v rest

/-- networkx remove_edges_from for one pair: removes one u→v edge, silently
skips the pair when no such edge exists. -/
def Graph.removeEdgeOnce (g : Graph) (u v : NodeId) : Graph :=
  { g with edges := removeEdgesAux u v g.edges }

def tempIds : List NodeId := [NodeId.srcNode, NodeId.dstNode, NodeId.endNode]

/-- networkx remove_nodes_from: drops the listed nodes and every incident edge. -/
def Graph.removeNodesFrom (g : Graph) (ids : List NodeId) : Graph :=
  { nodes := g.nodes.filter fun q => decide (q.1 ∉ ids),
    edges := g.edges.filter fun e => decide (e.1 ∉ ids) && decide (e.2.1 ∉ ids) }

/-- Python exceptions that the two modules can raise (TooNearError carries the
distance local that its handler reads). -/
inductive PyError where
  | keyError
  | typeError
  | indexError
  | attributeError
  | valueError
  | assertSrc
  | assertDst
  | noPath
  | nominatim
  | noTarget
  | tooNear (d : ℤ)
deriving DecidableEq

def PyError.isOOB : PyError → Bool
  | .assertSrc => true
  | .assertDst => true
  | _ => false

/-- One element of the route list returned by get_directions. -/
structure Sect where
  angle : Option ℚ
  current_name : Option String
  dst : Option Point
  length : Option ℚ
  mid : Point
  next_name : Option String
  src : Point
deriving DecidableEq

instance instDecEqExcept {e a : Type} [DecidableEq e] [DecidableEq a] :
    DecidableEq (Except e a) := fun x y =>
  match x, y with
  | .ok v, .ok w =>
    if h : v = w then isTrue (by rw [h])
    else isFalse (by intro hh; cases hh; exact h rfl)
  | .ok _, .error _ => isFalse (by intro hh; cases hh)
  | .error _, .ok _ => isFalse (by intro hh; cases hh)
  | .error v, .error w =>
    if h : v = w then isTrue (by rw [h])
    else isFalse (by intro hh; cases hh; exact h rfl)

/-- Street-name normalization: edges sometimes carry a list of names and the
code keeps the first one; indexing an empty list raises. -/
def getName : Option (String ⊕ List String) → Except PyError (Option String)
  | none => .ok none
  | some (.inl s) => .ok (some s)
  | some (.inr []) => .error .indexError
  | some (.inr (s :: _)) => .ok (some s)

/-- External collaborators of the two modules, passed in as parameters. -/
structure Ext where
  hav : Point → Point → ℚ
  shortestPath : Graph → NodeId → NodeId → Except Unit (List NodeId)
  truncate : Graph → NodeId → ℚ → Except Unit Graph
  nearestEdge : Graph → Point → Except Unit (NodeId × NodeId)
  bearing : Point → Point → ℚ
  geocode : String → Except Unit Point

/-- osmnx get_nearest_node(graph, point, return_dist=True): the node whose
coordinates minimize the great-circle distance to the query point, together
with that distance; ties keep the first node. -/
def nearest_node (hav : Point → Point → ℚ) (g : Graph) (p : Point) :
    Except PyError (NodeId × ℚ) :=
  if g.nodes.any fun q => q.2.isNone then .error .keyError
  else
    match g.nodes.filterMap (fun q => q.2.map fun c => (q.1, hav p c.swap)) with
    | [] => .error .valueError
    | x :: xs => .ok (xs.foldl (fun best y => if y.2 < best.2 then y else best) x)

/-- Reading the (x, y) pair of a node; missing node or missing coordinates is a KeyError. -/
def node_xy (g : Graph) (i : NodeId) : Except PyError Point :=
  match g.lookupNode i with
  | none => .error .keyError
  | some none => .error .keyError
  | some (some p) => .ok p

/-- Python tuple comparison on the two coordinate pairs. -/
def pointLeB (a b : Point) : Bool :=
  decide (a.1 < b.1 ∨ (a.1 = b.1 ∧ a.2 ≤ b.2))

/-- Body of the first try block of get_directions: does the network edge
nearest to the raw source coincide with the first edge of the path? Any
exception inside is mapped to the unit error. -/
def trim_src_attempt (ext : Ext) (g : Graph) (path : List NodeId)
    (source_node : NodeId) (src_distance : ℚ) (source_location : Point) :
    Except Unit Bool := (do
    let src_graph ← (ext.truncate g source_node (src_distance + FIND_DST)).mapError fun _ => ()
    let fe ← (ext.nearestEdge src_graph source_location).mapError fun _ => ()
    let ed ← match g.getEdgeData fe.1 fe.2 with | none => Except.error () | some d => Except.ok d
    let o1 ← match ed.osmid with | none => Except.error () | some o => Except.ok o
    let p0 ← match path.get? 0 with | none => Except.error () | some a => Except.ok a
    let p1 ← match path.get? 1 with | none => Except.error () | some a => Except.ok a
    let ed2 ← match g.getEdgeData p0 p1 with | none => Except.error () | some d => Except.ok d
    let o2 ← match ed2.osmid with | none => Except.error () | some o => Except.ok o
    Except.ok (decide (o1 = o2)) : Except Unit Bool)

/-- First try block of get_directions: drop the first path node when the network
edge nearest to the raw source is the first edge of the path; every exception
inside makes the trim a silent no-op. -/
def trim_src (ext : Ext) (g : Graph) (path : List NodeId) (source_node : NodeId)
    (src_distance : ℚ) (source_location : Point) : List NodeId :=
  match trim_src_attempt ext g path source_node src_distance source_location with
  | .ok true => path.drop 1
  | _ => path

/-- Body of the second try block of get_directions: does the network edge
nearest to the raw destination coincide with the last edge of the path? -/
def trim_dst_attempt (ext : Ext) (g : Graph) (path : List NodeId)
    (destiny_node : NodeId) (dst_distance : ℚ) (destination_location : Point) :
    Except Unit Bool := (do
    let dst_graph ← (ext.truncate g destiny_node (dst_distance + FIND_DST)).mapError fun _ => ()
    let le ← (ext.nearestEdge dst_graph destination_location).mapError fun _ => ()
    let ed ← match g.getEdgeData le.1 le.2 with | none => Except.error () | some d => Except.ok d
    let o1 ← match ed.osmid with | none => Except.error () | some o => Except.ok o
    let pm2 ← match pyGet path (-2) with | none => Except.error () | some a => Except.ok a
    let pm1 ← match pyGet path (-1) with | none => Except.error () | some a => Except.ok a
    let ed2 ← match g.getEdgeData pm2 pm1 with | none => Except.error () | some d => Except.ok d
    let o2 ← match ed2.osmid with | none => Except.error () | some o => Except.ok o
    Except.ok (decide (o1 = o2)) : Except Unit Bool)

/-- Second try block of get_directions: symmetric trim at the destination end,
dropping the last path node. -/
def trim_dst (ext : Ext) (g : Graph) (path : List NodeId) (destiny_node : NodeId)
    (dst_distance : ℚ) (destination_location : Point) : List NodeId :=
  match trim_dst_attempt ext g path destiny_node dst_distance destination_location with
  | .ok true => path.dropLast
  | _ => path

/-- The three temporary nodes get_directions adds to the shared graph. -/
def add_temp_nodes (g : Graph) (source_location destination_location : Point) : Graph :=
  ((g.addNode NodeId.srcNode (some source_location.swap)).addNode
      NodeId.dstNode (some destination_location.swap)).addNode NodeId.endNode none

/-- The sliding three-node window of get_directions that turns the spliced path
into the route list; the traversed graph is read only. -/
def build_route_aux (g : Graph) (mid dst : NodeId) :
    List NodeId → Except PyError (List Sect)
  | [] => .ok []
  | node :: rest =>
    let src := mid
    let mid2 := dst
    let dst2 := node
    let sm_edge := g.getEdgeData src mid2
    let md_edge := g.getEdgeData mid2 dst2
    let angle : Option ℚ :=
      match sm_edge, md_edge with
      | some s, some m =>
        match s.bearing, m.bearing with
        | some sb, some mb => some (qmod (mb - sb) 360)
        | _, _ => none
      | _, _ => none
    match sm_edge with
    | none => .error .attributeError
    | some smE =>
      match getName smE.name with
      | .error e => .error e
      | .ok current_name =>
        match md_edge with
        | none => .error .attributeError
        | some mdE =>
          match getName mdE.name with
          | .error e => .error e
          | .ok next_name =>
            match g.lookupNode dst2 with
            | none => .error .keyError
            | some dstAttrs =>
              match g.lookupNode mid2 with
              | none => .error .keyError
              | some none => .error .keyError
              | some (some midCoord) =>
                match g.lookupNode src with
                | none => .error .keyError
                | some none => .error .keyError
                | some (some srcCoord) =>
                  match build_route_aux g mid2 dst2 rest with
                  | .error e => .error e
                  | .ok sects =>
                    .ok ({ angle := angle, current_name := current_name,
                           dst := dstAttrs, length := smE.length,
                           mid := midCoord, next_name := next_name,
                           src := srcCoord } :: sects)

def build_route (g : Graph) (path : List NodeId) : Except PyError (List Sect) :=
  match path with
  | p0 :: p1 :: rest => build_route_aux g p0 p1 rest
  | _ => .error .indexError

/-- Final block of get_directions: remove the three temporary nodes (taking their
incident edges with them) and then the three listed edge pairs. -/
def cleanup (g : Graph) (path2 : List NodeId) : Graph :=
  let g0 := g.removeNodesFrom tempIds
  let g1 := match pyGet path2 0, pyGet path2 1 with
    | some a, some b => g0.removeEdgeOnce a b
    | _, _ => g0
  let g2 := match pyGet path2 (-3), pyGet path2 (-2) with
    | some a, some b => g1.removeEdgeOnce a b
    | _, _ => g1
  match pyGet path2 (-2), pyGet path2 (-1) with
  | some a, some b => g2.removeEdgeOnce a b
  | _, _ => g2

/-- Splicing the two virtual endpoint keys and the imaginary terminal node
around the (possibly trimmed) shortest path. -/
def splice (l : List NodeId) : List NodeId :=
  NodeId.srcNode :: (l ++ [NodeId.dstNode, NodeId.endNode])

/-- The input street network is fresh for a route computation when none of the
three temporary keys occurs among its nodes or edge endpoints (real osmnx
graphs use integer node ids, so this always holds). -/
def freshTemps (g : Graph) : Prop :=
  g.hasNode NodeId.srcNode = false ∧ g.hasNode NodeId.dstNode = false ∧
  g.hasNode NodeId.endNode = false ∧
  (∀ e2 ∈ g.edges, e2.1 ∉ tempIds ∧ e2.2.1 ∉ tempIds)

/-- Continuation of get_directions after snapping, shortest path and trimming:
splicing, temporary node and edge insertion on the shared graph, bearing of the
final hop, route construction, and removal of the temporaries; the Graph
component is the shared graph as left behind by the call. -/
def get_directions_after_trim (ext : Ext) (g : Graph)
    (source_location destination_location : Point) (path1 : List NodeId) :
    Except PyError (List Sect) × Graph :=
  let path2 := splice path1
  let g1 := add_temp_nodes g source_location destination_location
  match pyGet path2 (-3) with
  | none => (.error .indexError, g1)
  | some pm3 =>
    match node_xy g1 pm3 with
    | .error e => (.error e, g1)
    | .ok origin =>
      let final := destination_location.swap
      let last_bear :=
        if pointLeB origin final then ext.bearing origin final
        else ext.bearing final origin
      match pyGet path2 0, pyGet path2 1, pyGet path2 (-2), pyGet path2 (-1) with
      | some p0, some p1, some pm2, some pm1 =>
        let g2 := ((g1.addEdgeNX p0 p1 EdgeData.empty).addEdgeNX pm2 pm1
            EdgeData.empty).addEdgeNX pm3 pm2 { bearing := some last_bear }
        match build_route g2 path2 with
        | .error e => (.error e, g2)
        | .ok route => (.ok route, cleanup g2 path2)
      | _, _, _, _ => (.error .indexError, g1)

/-- guide.get_directions: snap both endpoints (failing the asserts when a snap
distance reaches FARTHEST_NODE), find the shortest path, trim the redundant
boundary hops, then run the continuation; the Graph component threads the
shared, mutated street network. -/
def get_directions (ext : Ext) (g : Graph)
    (source_location destination_location : Point) :
    Except PyError (List Sect) × Graph :=
  match nearest_node ext.hav g source_location with
  | .error e => (.error e, g)
  | .ok (source_node, src_distance) =>
    if src_distance < FARTHEST_NODE then
      match nearest_node ext.hav g destination_location with
      | .error e => (.error e, g)
      | .ok (destiny_node, dst_distance) =>
        if dst_distance < FARTHEST_NODE then
          match ext.shortestPath g source_node destiny_node with
          | .error _ => (.error .noPath, g)
          | .ok path0 =>
            get_directions_after_trim ext g source_location destination_location
              (if path0.length > 1 then
                trim_dst ext g
                  (trim_src ext g path0 source_node src_distance source_location)
                  destiny_node dst_distance destination_location
              else path0)
        else (.error .assertDst, g)
    else (.error .assertSrc, g)

/-- Kinds of turn phrases of the medium guiding message. -/
inductive Turn where
  | straight
  | halfRight
  | right
  | strongRight
  | strongLeft
  | left
  | halfLeft
deriving DecidableEq

/-- Kinds of arrival phrases of the final guiding message. -/
inductive Arrival where
  | ahead
  | right
  | left
deriving DecidableEq

/-- Messages the bot sends to the user, abstracted to their data content. -/
inductive Event where
  | startMsg (dist : ℤ) (nextName : String) (last : ℤ)
  | checkpointReached (index : ℕ) (last : ℤ) (turn : Turn) (street : String) (dist : ℤ)
  | routeCompleted (dist : ℤ) (hint : Arrival)
  | shareOffer
  | photo
  | driftWarning (dist : ℤ)
  | lostSuggestRecompute
  | inactivityWarning
  | computingMsg
  | tooNearMsg (dist : ℤ)
  | noTargetMsg
  | notSharingMsg
  | srcNotInPlace
  | destNotInPlace
  | notAPlace
  | internalErrorMsg
  | cancelledMsg
  | noRouteToCancel
deriving DecidableEq

/-- context.user_data: every key is optional because Python dictionaries start empty. -/
structure UserData where
  loc : Option Point := none
  last_time : Option ℤ := none
  target : Option String := none
  route : Option (List Sect) := none
  checkpts : Option ℕ := none
  curr_chkpt : Option ℕ := none
  waiting : Option Bool := none
  inline_tapped : Option (List Bool) := none
deriving DecidableEq

/-- The observable bot state for one user: the user data dictionary, the shared
graph of bot_data, the messages sent so far, and whether the repeating
no-response job is scheduled. -/
structure Ctx where
  ud : UserData
  graph : Graph
  sent : List Event := []
  timerOn : Bool := false
deriving DecidableEq

def send (ctx : Ctx) (e : Event) : Ctx :=
  { ctx with sent := ctx.sent ++ [e] }

/-- context.user_data['inline_tapped'][i] = False: KeyError when the list was
never initialized, IndexError when it is too short. -/
def set_tap (ctx : Ctx) (i : ℕ) : Ctx × Option PyError :=
  match ctx.ud.inline_tapped with
  | none => (ctx, some PyError.keyError)
  | some l =>
    if i < l.length then
      ({ ctx with ud := { ctx.ud with inline_tapped := some (l.set i false) } }, none)
    else (ctx, some PyError.indexError)

/-- Turn classification of the medium guiding message; a missing or zero angle
falls through to the straight phrase. -/
def turn_word (a : Option ℚ) : Turn :=
  match a with
  | none => Turn.straight
  | some d =>
    if d = 0 then Turn.straight
    else if 0 < d ∧ d < 45/2 then Turn.straight
    else if d < 135/2 then Turn.halfRight
    else if d < 225/2 then Turn.right
    else if d < 180 then Turn.strongRight
    else if d < 495/2 then Turn.strongLeft
    else if d < 585/2 then Turn.left
    else if d < 675/2 then Turn.halfLeft
    else Turn.straight

/-- Arrival classification of the final guiding message. -/
def arrival_word (a : Option ℚ) : Arrival :=
  match a with
  | none => Arrival.ahead
  | some d =>
    if d = 0 then Arrival.ahead
    else if 0 < d ∧ d < 45/2 then Arrival.ahead
    else if d < 180 then Arrival.right
    else if d < 675/2 then Arrival.left
    else Arrival.ahead

/-- bot._message_route: builds the guiding message for the current checkpoint;
on the last checkpoint it also sends the arrival photo and deletes route,
checkpts and curr_chkpt before returning the message. -/
def message_route (ext : Ext) (ctx : Ctx) : Ctx × Except PyError Event :=
  match ctx.ud.route with
  | none => (ctx, .error .keyError)
  | some route =>
    match ctx.ud.loc with
    | none => (ctx, .error .keyError)
    | some loc =>
      match ctx.ud.curr_chkpt with
      | none => (ctx, .error .keyError)
      | some current =>
        match ctx.ud.checkpts with
        | none => (ctx, .error .keyError)
        | some checkpts =>
          let last : ℤ := (checkpts : ℤ) - 1
          if current = 0 then
            match pyGet route 0 with
            | none => (ctx, .error .indexError)
            | some s0 =>
              let dist := pythonRound (ext.hav loc.swap s0.mid.swap)
              match s0.next_name with
              | none => (ctx, .error .typeError)
              | some nm => (ctx, .ok (.startMsg dist nm last))
          else if (current : ℤ) < last then
            match pyGet route ((current : ℤ) - 1) with
            | none => (ctx, .error .indexError)
            | some sPrev =>
              match pyGet route (current : ℤ) with
              | none => (ctx, .error .indexError)
              | some sCur =>
                match sCur.length with
                | none => (ctx, .error .typeError)
                | some len =>
                  match sCur.current_name with
                  | none => (ctx, .error .typeError)
                  | some cn =>
                    (ctx, .ok (.checkpointReached current last
                        (turn_word sPrev.angle) cn (pythonRound len)))
          else
            match pyGet route (-1) with
            | none => (ctx, .error .indexError)
            | some sLast =>
              let dist := pythonRound (ext.hav loc.swap sLast.mid.swap)
              match pyGet route ((current : ℤ) - 1) with
              | none => (ctx, .error .indexError)
              | some sPrev =>
                let ud2 : UserData :=
                  { ctx.ud with route := none, checkpts := none, curr_chkpt := none }
                let c2 : Ctx := { ctx with sent := ctx.sent ++ [Event.photo], ud := ud2 }
                (c2, .ok (.routeCompleted dist (arrival_word sPrev.angle)))

/-- The reach test of the look-ahead loop: literally
`if current_distance and current_distance < NEAR_DST`, so a rounded distance of
0 is falsy and never counts as reached. -/
def is_near_cond (cd : Option ℤ) : Bool :=
  match cd with
  | none => false
  | some d => decide (d ≠ 0) && decide (d < NEAR_DST)

/-- The `for i in range(N)` look-ahead loop of bot._update_and_check, carrying
the two Python locals current_distance and is_near; the route is re-read from
user_data on every iteration, exactly as the source does. -/
def look_ahead (ext : Ext) (location : Point) (current checkpts : ℕ) :
    List ℕ → Option ℤ → Bool → Ctx → Ctx × Option ℤ × Bool × Option PyError
  | [], cd, isNear, ctx => (ctx, cd, isNear, none)
  | i :: rest, cd, isNear, ctx =>
    match (if current + i < checkpts then
             match ctx.ud.route with
             | none => Sum.inr PyError.keyError
             | some r =>
               match pyGet r ((current + i : ℕ) : ℤ) with
               | none => Sum.inr PyError.indexError
               | some seg =>
                 Sum.inl (some (pythonRound (ext.hav location.swap seg.mid.swap)))
           else Sum.inl cd : Option ℤ ⊕ PyError) with
    | Sum.inr e => (ctx, cd, isNear, some e)
    | Sum.inl cd2 =>
      if is_near_cond cd2 then
        let c1 : Ctx := { ctx with ud := { ctx.ud with curr_chkpt := some (current + i + 1) } }
        match message_route ext c1 with
        | (c2, .error e) => (c2, cd2, true, some e)
        | (c2, .ok msg) =>
          let c3 := send c2 msg
          if (current + i + 1 : ℤ) = (checkpts : ℤ) - 1 then
            match c3.ud.target with
            | none => (c3, cd2, true, some PyError.keyError)
            | some _ => look_ahead ext location current checkpts rest cd2 true (send c3 Event.shareOffer)
          else look_ahead ext location current checkpts rest cd2 true c3
      else look_ahead ext location current checkpts rest cd2 isNear ctx

/-- The `if not is_near` tail of bot._update_and_check: recompute the rounded
distance to the current (un-advanced) checkpoint and compare it against the
truthiness-guarded segment length plus the two slacks. -/
def drift_check (ext : Ext) (location : Point) (current : ℕ) (ctx : Ctx) :
    Ctx × Option PyError :=
  match ctx.ud.route with
  | none => (ctx, some PyError.keyError)
  | some r =>
    match pyGet r (current : ℤ) with
    | none => (ctx, some PyError.indexError)
    | some seg =>
      let current_distance := pythonRound (ext.hav location.swap seg.mid.swap)
      match seg.length with
      | some m =>
        if m ≠ 0 ∧ (current_distance : ℚ) > m + FAR_AWAY_DST then
          match set_tap ctx 6 with
          | (c, some e) => (c, some e)
          | (c, none) => (send c Event.lostSuggestRecompute, none)
        else if m ≠ 0 ∧ (current_distance : ℚ) > m + AWAY_DST then
          match set_tap ctx 2 with
          | (c, some e) => (c, some e)
          | (c, none) => (send c (Event.driftWarning current_distance), none)
        else (ctx, none)
      | none => (ctx, none)

/-- bot._update_and_check: store location, time and waiting=False, then run the
look-ahead loop and, when nothing was reached, the drift check; the error
component is the exception the handler would raise after its visible effects. -/
def update_and_check (ext : Ext) (now : ℤ) (location : Point) (ctx : Ctx) :
    Ctx × Option PyError :=
  let c0 : Ctx := { ctx with ud := { ctx.ud with
      loc := some location, last_time := some now, waiting := some false } }
  match c0.ud.route with
  | none => (c0, none)
  | some r =>
    if r.isEmpty then (c0, none)
    else
      match c0.ud.curr_chkpt with
      | none => (c0, some PyError.keyError)
      | some current =>
        match c0.ud.checkpts with
        | none => (c0, some PyError.keyError)
        | some checkpts =>
          match look_ahead ext location current checkpts (List.range N) none false c0 with
          | (c1, _, _, some e) => (c1, some e)
          | (c1, _, isNear, none) =>
            if isNear then (c1, none)
            else drift_check ext location current c1

/-- The try block of bot._compute_route: geocode the stored target, announce the
computation, call get_directions on the shared graph, adopt the route into
user_data, send the trip photo, and either raise TooNearError (two checkpoints)
or send the first guiding message and start the repeating no-response job. -/
def compute_route_body (ext : Ext) (ctx : Ctx) : Ctx × Option PyError :=
  match ctx.ud.loc with
  | none => (ctx, some PyError.keyError)
  | some loc =>
    let location := loc.swap
    match ctx.ud.target with
    | none => (ctx, some PyError.noTarget)
    | some t =>
      if t = "" then (ctx, some PyError.noTarget)
      else
        match ext.geocode t with
        | .error _ => (ctx, some PyError.nominatim)
        | .ok destination =>
          let c1 := send ctx Event.computingMsg
          match get_directions ext c1.graph location destination with
          | (.error e, g2) => ({ c1 with graph := g2 }, some e)
          | (.ok route, g2) =>
            let checkpoints := route.length
            let c2 : Ctx := { c1 with graph := g2, ud := { c1.ud with
                route := some route, checkpts := some checkpoints,
                curr_chkpt := some 0 } }
            let c3 := send c2 Event.photo
            if checkpoints = 2 then
              match pyGet route 0 with
              | none => (c3, some PyError.indexError)
              | some s0 =>
                let mid := s0.mid.swap
                (c3, some (PyError.tooNear
                  (pythonRound (ext.hav location mid + ext.hav mid destination))))
            else
              match message_route ext c3 with
              | (c4, .error e) => (c4, some e)
              | (c4, .ok msg) => ({ send c4 msg with timerOn := true }, none)

/-- The except clauses of bot._compute_route, in source order. -/
def compute_route_handle (e : PyError) (ctx : Ctx) : Ctx × Option PyError :=
  match e with
  | .noTarget => (send ctx Event.noTargetMsg, none)
  | .tooNear d => (send ctx (Event.tooNearMsg d), none)
  | .keyError =>
    match set_tap ctx 4 with
    | (c, some e2) => (c, some e2)
    | (c, none) => (send c Event.notSharingMsg, none)
  | .assertDst => (send ctx Event.destNotInPlace, none)
  | .assertSrc => (send ctx Event.srcNotInPlace, none)
  | .nominatim => (send ctx Event.notAPlace, none)
  | _ => (send ctx Event.internalErrorMsg, none)

/-- bot._compute_route: the try body together with its exception handlers. -/
def compute_route (ext : Ext) (ctx : Ctx) : Ctx × Option PyError :=
  match compute_route_body ext ctx with
  | (c, none) => (c, none)
  | (c, some e) => compute_route_handle e c

/-- bot._callback_no_response: warn once per sustained silence, gated by the
waiting flag that the next real location update clears. -/
def callback_no_response (now : ℚ) (ctx : Ctx) : Ctx × Option PyError :=
  match ctx.ud.waiting with
  | none => (ctx, none)
  | some true => (ctx, none)
  | some false =>
    match ctx.ud.last_time with
    | none => (ctx, some PyError.keyError)
    | some lt =>
      if now - (lt : ℚ) > MAX_TIME then
        match set_tap ctx 3 with
        | (c, some e) => (c, some e)
        | (c, none) =>
          match set_tap c 4 with
          | (c2, some e) => (c2, some e)
          | (c2, none) =>
            let c3 : Ctx := { c2 with ud := { c2.ud with waiting := some true } }
            (send c3 Event.inactivityWarning, none)
      else (ctx, none)

/-- One firing opportunity of the scheduler: the job only runs while it is
scheduled; nothing in route completion unschedules it. -/
def timer_tick (now : ℚ) (ctx : Ctx) : Ctx × Option PyError :=
  if ctx.timerOn then callback_no_response now ctx else (ctx, none)

/-- bot.cancel: stop the job queue, then delete the three route keys; a missing
key is caught and reported as nothing to cancel. -/
def cancel_cmd (ctx : Ctx) : Ctx × Option PyError :=
  let c : Ctx := { ctx with timerOn := false }
  match c.ud.route with
  | none => (send c Event.noRouteToCancel, none)
  | some _ =>
    let c1 : Ctx := { c with ud := { c.ud with route := none } }
    match c1.ud.checkpts with
    | none => (send c1 Event.noRouteToCancel, none)
    | some _ =>
      let c2 : Ctx := { c1 with ud := { c1.ud with checkpts := none } }
      match c2.ud.curr_chkpt with
      | none => (send c2 Event.noRouteToCancel, none)
      | some _ =>
        let c3 : Ctx := { c2 with ud := { c2.ud with curr_chkpt := none } }
        (send c3 Event.cancelledMsg, none)

/-- Taxicab distance: a concrete executable stand-in for the haversine parameter. -/
def wHav : Point → Point → ℚ := fun a b => |a.1 - b.1| + |a.2 - b.2|

/-- Concrete external collaborators used in the evaluated scenarios. -/
def wExt : Ext :=
  { hav := wHav,
    shortestPath := fun _ _ _ => .ok [NodeId.osm 0],
    truncate := fun _ _ _ => .error (),
    nearestEdge := fun _ _ => .error (),
    bearing := fun _ _ => 90,
    geocode := fun _ => .ok (1/1000, 0) }

/-- A one-node street network. -/
def wG : Graph := ⟨[(NodeId.osm 0, some (0, 0))], []⟩

/-- First section of the route get_directions builds on wG. -/
def wS1 : Sect := ⟨none, none, some (0, 1/1000), none, (0, 0), none, (0, 0)⟩

/-- Second section of the route get_directions builds on wG. -/
def wS2 : Sect := ⟨none, none, none, none, (0, 1/1000), none, (0, 0)⟩

def wUD : UserData :=
  { loc := some (0, 0), target := some "T",
    inline_tapped := some (List.replicate 7 false) }

def wCtx : Ctx := { ud := wUD, graph := wG }

/-- Sections of the three-checkpoint scenario route. -/
def sA : Sect := ⟨some 90, some "A", none, some 50, (0, 0), some "Foo", (0, 0)⟩

def sB : Sect := ⟨some 200, some "Foo", none, some 50, (100, 0), some "Bar", (0, 0)⟩

def sC : Sect := ⟨none, none, none, none, (200, 0), none, (0, 0)⟩

def c2ctx : Ctx :=
  { ud := { loc := some (0, 0), last_time := some 0, target := some "T",
            route := some [sA, sB, sC], checkpts := some 3, curr_chkpt := some 0,
            waiting := some false, inline_tapped := some (List.replicate 7 false) },
    graph := wG, timerOn := true }

/-- First section of a route whose current checkpoint the user stands exactly on. -/
def c3s0 : Sect := ⟨none, none, none, some 50, (0, 0), none, (0, 0)⟩

def c3ctx : Ctx :=
  { ud := { loc := some (0, 0), last_time := some 0, target := some "T",
            route := some [c3s0, sB, sC], checkpts := some 3, curr_chkpt := some 0,
            waiting := some false, inline_tapped := some (List.replicate 7 false) },
    graph := wG, timerOn := true }

/-- A section whose stored edge length is the float 0.0, which Python treats as falsy. -/
def c5seg : Sect := ⟨none, none, none, some 0, (300, 0), none, (0, 0)⟩

def c5ctx : Ctx :=
  { ud := { route := some [c5seg], inline_tapped := some (List.replicate 7 false) },
    graph := wG }

/-- Sections of the four-checkpoint scenario route that completes cleanly. -/
def c7s0 : Sect := ⟨none, none, none, none, (1000, 0), none, (0, 0)⟩

def c7s1 : Sect := ⟨none, none, none, none, (2000, 0), none, (0, 0)⟩

def c7s2 : Sect := ⟨none, none, none, none, (3000, 0), none, (0, 0)⟩

def c7s3 : Sect := ⟨none, none, none, none, (4000, 0), none, (0, 0)⟩

def c7ctx : Ctx :=
  { ud := { loc := some (0, 0), last_time := some 0, target := some "T",
            route := some [c7s0, c7s1, c7s2, c7s3], checkpts := some 4,
            curr_chkpt := some 0, waiting := some false,
            inline_tapped := some (List.replicate 7 false) },
    graph := wG, timerOn := true }

/-- A network whose single node sits at snap distance exactly FARTHEST_NODE. -/
def c9G : Graph := ⟨[(NodeId.osm 0, some (0, 2000))], []⟩

/-- A session that has been idle while navigating. -/
def c6ctx : Ctx :=
  { ud := { waiting := some false, last_time := some 0,
            inline_tapped := some (List.replicate 7 false) },
    graph := wG, timerOn := true }

/-- Section and session for the C5 witness: length 10, rounded distance 300. -/
def c5wseg : Sect := ⟨none, none, none, some 10, (300, 0), none, (0, 0)⟩

def c5wctx : Ctx :=
  { ud := { route := some [c5wseg], inline_tapped := some (List.replicate 7 false) },
    graph := wG }

theorem qfloor_eq_floor (q : ℚ) : qfloor q = ⌊q⌋ := by
  rw [Rat.floor_def, qfloor, Int.fdiv_eq_ediv _ (by exact_mod_cast Nat.zero_le q.den)]

set_option maxRecDepth 1000000 in
/-- C2: on a three-checkpoint route, an update within 20 m of the first midpoint
produces exactly one CheckpointReached; the next update, within 20 m of the
second midpoint, sends the arrival photo, RouteCompleted and the share offer and
deletes route, checkpts and curr_chkpt, but the handler then raises KeyError
from the remaining look-ahead iterations instead of returning normally. -/
theorem c2_completion_raises_keyerror :
    (update_and_check wExt 10 (1, 0) c2ctx).2 = none ∧
    (update_and_check wExt 10 (1, 0) c2ctx).1.sent =
      [Event.checkpointReached 1 2 Turn.right "Foo" 50] ∧
    (update_and_check wExt 20 (101, 0) (update_and_check wExt 10 (1, 0) c2ctx).1).2 =
      some PyError.keyError ∧
    (update_and_check wExt 20 (101, 0) (update_and_check wExt 10 (1, 0) c2ctx).1).1.ud.route
      = none ∧
    (update_and_check wExt 20 (101, 0) (update_and_check wExt 10 (1, 0) c2ctx).1).1.ud.checkpts
      = none ∧
    (update_and_check wExt 20 (101, 0) (update_and_check wExt 10 (1, 0) c2ctx).1).1.ud.curr_chkpt
      = none ∧
    (update_and_check wExt 20 (101, 0) (update_and_check wExt 10 (1, 0) c2ctx).1).1.sent =
      [Event.checkpointReached 1 2 Turn.right "Foo" 50, Event.photo,
       Event.routeCompleted 99 Arrival.left, Event.shareOffer] := by
  with_unfolding_all decide

set_option maxRecDepth 1000000 in
/-- C3: a location exactly at the current checkpoint midpoint has rounded
distance 0, which the guard `if current_distance and ...` treats as falsy, so
the tracker neither advances curr_chkpt nor emits any event. -/
theorem c3_exact_midpoint_not_advanced :
    wExt.hav ((0, 0) : Point).swap c3s0.mid.swap = 0 ∧
    (update_and_check wExt 5 (0, 0) c3ctx).2 = none ∧
    (update_and_check wExt 5 (0, 0) c3ctx).1.ud.curr_chkpt = some 0 ∧
    (update_and_check wExt 5 (0, 0) c3ctx).1.sent = [] := by
  with_unfolding_all decide

set_option maxRecDepth 1000000 in
/-- C4: when the built route has exactly two checkpoints, _compute_route stores
route, checkpts and curr_chkpt in the session before raising TooNearError and
its handler never removes them, so the session state is not preserved. -/
theorem c4_too_near_route_adopted :
    wCtx.ud.route = none ∧ wCtx.ud.checkpts = none ∧ wCtx.ud.curr_chkpt = none ∧
    (compute_route wExt wCtx).2 = none ∧
    (compute_route wExt wCtx).1.ud.route = some [wS1, wS2] ∧
    (compute_route wExt wCtx).1.ud.checkpts = some 2 ∧
    (compute_route wExt wCtx).1.ud.curr_chkpt = some 0 ∧
    (compute_route wExt wCtx).1.sent =
      [Event.computingMsg, Event.photo, Event.tooNearMsg 0] := by
  with_unfolding_all decide

set_option maxRecDepth 100000 in
/-- C5 counterexample: the current segment length is present but equal to 0,
the rounded current distance exceeds it by more than FAR_AWAY_DST, yet the
truthiness guard on min_distance suppresses every warning event. -/
theorem c5_zero_length_cex :
    c5seg.length = some 0 ∧
    ((pythonRound (wExt.hav ((0, 0) : Point).swap c5seg.mid.swap) : ℚ) >
      0 + FAR_AWAY_DST) ∧
    drift_check wExt (0, 0) 0 c5ctx = (c5ctx, none) := by
  with_unfolding_all decide

set_option maxRecDepth 1000000 in
/-- C7: completing a route (reached via the last look-ahead slot) clears the
route but leaves the repeating job scheduled, and the very next tick past
MAX_TIME emits InactivityWarning although the session has no route. -/
theorem c7_timer_after_completion :
    (update_and_check wExt 100 (3001, 0) c7ctx).2 = none ∧
    (update_and_check wExt 100 (3001, 0) c7ctx).1.ud.route = none ∧
    (update_and_check wExt 100 (3001, 0) c7ctx).1.timerOn = true ∧
    (timer_tick 342 (update_and_check wExt 100 (3001, 0) c7ctx).1).2 = none ∧
    (timer_tick 342 (update_and_check wExt 100 (3001, 0) c7ctx).1).1.sent =
      [Event.photo, Event.routeCompleted 999 Arrival.ahead, Event.shareOffer,
       Event.inactivityWarning] := by
  with_unfolding_all decide

set_option maxRecDepth 100000 in
/-- C8 counterexample: on a successful get_directions call the graph value that
the computation installs in the shared street network right after splicing (the
add_temp_nodes step) has a different node set than the input graph, so the
shared network is mutated transiently rather than kept intact at every
intermediate step. -/
theorem c8_transient_mutation_cex :
    (get_directions wExt wG (0, 0) (1/1000, 0)).1 = .ok [wS1, wS2] ∧
    (add_temp_nodes wG (0, 0) (1/1000, 0)).nodes ≠ wG.nodes := by
  with_unfolding_all decide

set_option maxRecDepth 100000 in
/-- C9 counterexample: a source whose snap distance is exactly 2000 m does not
exceed FARTHEST_NODE, yet get_directions fails the source assert because the
code compares with strict less-than. -/
theorem c9_boundary_cex :
    nearest_node wExt.hav c9G (0, 0) = .ok (NodeId.osm 0, 2000) ∧
    ¬((2000 : ℚ) > FARTHEST_NODE) ∧
    (get_directions wExt c9G (0, 0) (0, 0)).1 = .error PyError.assertSrc := by
  with_unfolding_all decide

theorem pythonRound_nonneg (q : ℚ) (hq : 0 ≤ q) : 0 ≤ pythonRound q := by
  have hf : (0 : ℤ) ≤ ⌊q⌋ := Int.floor_nonneg.mpr hq
  unfold pythonRound
  rw [qfloor_eq_floor]
  split_ifs <;> omega

theorem pythonRound_high_half (q : ℚ) (h1 : 39/2 ≤ q) (h2 : q < 20) :
    pythonRound q = 20 := by
  have hf : ⌊q⌋ = 19 := by
    rw [Int.floor_eq_iff]
    constructor
    · push_cast
      linarith
    · push_cast
      linarith
  have hging : (1 : ℚ)/2 ≤ q - ⌊q⌋ := by
    rw [hf]
    push_cast
    linarith
  unfold pythonRound
  rw [qfloor_eq_floor, hf]
  split_ifs with ha hb hc
  · linarith
  · rfl
  · omega
  · rfl

/-- C10: the look-ahead reach test works on the haversine distance rounded to
the nearest whole meter: for a nonnegative true distance q the checkpoint
counts as reached exactly when 1 <= round(q) <= 19, and consequently every
true distance in [19.5, 20) rounds to 20 and is not reached even though it is
strictly below NEAR_DST. -/
theorem c10_rounded_reach (q : ℚ) (hq : 0 ≤ q) :
    (is_near_cond (some (pythonRound q)) = true ↔
      1 ≤ pythonRound q ∧ pythonRound q ≤ 19) ∧
    (39/2 ≤ q → q < 20 → is_near_cond (some (pythonRound q)) = false) := by
  have hnn := pythonRound_nonneg q hq
  constructor
  · simp only [is_near_cond, NEAR_DST, Bool.and_eq_true, decide_eq_true_eq, ne_eq]
    omega
  · intro h1 h2
    rw [pythonRound_high_half q h1 h2]
    rfl

/-- C10 witness: the boundary distance 19.5 m rounds to 20 and is not reached. -/
theorem c10_rounded_reach_w :
    (0 : ℚ) ≤ 39/2 ∧ (39/2 : ℚ) < 20 ∧
    is_near_cond (some (pythonRound (39/2))) = false :=
  ⟨by norm_num, by norm_num,
    (c10_rounded_reach (39/2) (by norm_num)).2 (le_refl _) (by norm_num)⟩

/-- C6: for an initialized session holding a last update time, one timer tick
emits InactivityWarning exactly when the waiting flag is false and more than
MAX_TIME seconds have elapsed; on emission the tick sets waiting to true, so a
second consecutive tick (at any time) emits nothing. -/
theorem c6_inactivity_iff (now now2 : ℚ) (ctx : Ctx) (t : ℤ) (l : List Bool)
    (htap : ctx.ud.inline_tapped = some l) (hlen : 5 ≤ l.length)
    (ht : ctx.ud.last_time = some t) :
    ((callback_no_response now ctx).1.sent = ctx.sent ++ [Event.inactivityWarning] ↔
      (ctx.ud.waiting = some false ∧ now - (t : ℚ) > MAX_TIME)) ∧
    (ctx.ud.waiting = some false → now - (t : ℚ) > MAX_TIME →
      (callback_no_response now ctx).2 = none ∧
      (callback_no_response now ctx).1.ud.waiting = some true ∧
      (callback_no_response now2 (callback_no_response now ctx).1).1.sent =
        (callback_no_response now ctx).1.sent) := by
  have h3 : 3 < l.length := by omega
  have h4 : 4 < l.length := by omega
  rcases hw : ctx.ud.waiting with _ | b
  · constructor
    · simp [callback_no_response, hw]
    · intro h
      cases h
  · cases b
    · by_cases hM : now - (t : ℚ) > MAX_TIME
      · simp [callback_no_response, hw, ht, hM, set_tap, htap, h3, h4,
          List.length_set, send]
      · constructor
        · simp [callback_no_response, hw, ht, hM]
        · intro _ h
          exact absurd h hM
    · constructor
      · simp [callback_no_response, hw]
      · intro h
        cases h

/-- C6 witness: a session idle for 241 s warns exactly once, the flag is set,
and a second consecutive tick emits nothing. -/
theorem c6_inactivity_iff_w :
    (callback_no_response 241 c6ctx).1.sent = c6ctx.sent ++ [Event.inactivityWarning] ∧
    (callback_no_response 241 c6ctx).2 = none ∧
    (callback_no_response 241 c6ctx).1.ud.waiting = some true ∧
    (callback_no_response 301 (callback_no_response 241 c6ctx).1).1.sent =
      (callback_no_response 241 c6ctx).1.sent := by
  have hcond : (241 : ℚ) - ((0 : ℤ) : ℚ) > MAX_TIME := by norm_num [MAX_TIME]
  have h := c6_inactivity_iff 241 301 c6ctx 0 (List.replicate 7 false) rfl
    (by simp) rfl
  exact ⟨h.1.mpr ⟨rfl, hcond⟩, (h.2 rfl hcond).1, (h.2 rfl hcond).2.1,
    (h.2 rfl hcond).2.2⟩

/-- C5 amended: when the current segment length is present and nonzero, the
drift check is an exact trichotomy on the rounded distance: strictly beyond
length + FAR_AWAY_DST exactly LostSuggestRecompute is emitted (never
DriftWarning), else strictly beyond length + AWAY_DST exactly DriftWarning with
the rounded distance is emitted, and otherwise nothing is emitted. -/
theorem c5_drift_trichotomy (ext : Ext) (location : Point) (current : ℕ)
    (ctx : Ctx) (r : List Sect) (seg : Sect) (m : ℚ) (l : List Bool)
    (hr : ctx.ud.route = some r)
    (hseg : pyGet r (current : ℤ) = some seg)
    (hm : seg.length = some m) (hm0 : m ≠ 0)
    (htap : ctx.ud.inline_tapped = some l) (hlen : 7 ≤ l.length) :
    (((pythonRound (ext.hav location.swap seg.mid.swap) : ℚ) > m + FAR_AWAY_DST →
      drift_check ext location current ctx =
        ({ ctx with ud := { ctx.ud with inline_tapped := some (l.set 6 false) }, sent := ctx.sent ++ [Event.lostSuggestRecompute] }, none)) ∧
     (¬ ((pythonRound (ext.hav location.swap seg.mid.swap) : ℚ) > m + FAR_AWAY_DST) →
      (pythonRound (ext.hav location.swap seg.mid.swap) : ℚ) > m + AWAY_DST →
      drift_check ext location current ctx =
        ({ ctx with ud := { ctx.ud with inline_tapped := some (l.set 2 false) }, sent := ctx.sent ++ [Event.driftWarning (pythonRound (ext.hav location.swap seg.mid.swap))] }, none)) ∧
     (¬ ((pythonRound (ext.hav location.swap seg.mid.swap) : ℚ) > m + FAR_AWAY_DST) →
      ¬ ((pythonRound (ext.hav location.swap seg.mid.swap) : ℚ) > m + AWAY_DST) →
      drift_check ext location current ctx = (ctx, none))) := by
  have h6 : 6 < l.length := by omega
  have h2 : 2 < l.length := by omega
  refine ⟨fun hf => ?_, fun hnf ha => ?_, fun hnf hna => ?_⟩
  · simp [drift_check, hr, hseg, hm, hm0, hf, set_tap, htap, h6, send]
  · simp [drift_check, hr, hseg, hm, hm0, hnf, ha, set_tap, htap, h2, send]
  · simp [drift_check, hr, hseg, hm, hm0, hnf, hna]

/-- C5 witness: a rounded distance of 300 m against a 10 m segment emits exactly
LostSuggestRecompute. -/
theorem c5_drift_trichotomy_w :
    drift_check wExt (0, 0) 0 c5wctx =
      ({ c5wctx with ud := { c5wctx.ud with inline_tapped := some ((List.replicate 7 false).set 6 false) }, sent := [Event.lostSuggestRecompute] }, none) := by
  have h := c5_drift_trichotomy wExt (0, 0) 0 c5wctx [c5wseg] c5wseg 10
    (List.replicate 7 false) rfl rfl rfl (by norm_num) rfl (by simp)
  exact h.1 (by with_unfolding_all decide)

/-- C1: whenever get_directions builds a two-section list, _compute_route sends
the computing message and the trip photo, surfaces TooNear with the rounded sum
of the two haversine legs through the shared midpoint, delivers no guiding
message, and does not start the inactivity timer; the handler returns without
error. -/
theorem c1_too_near_no_delivery (ext : Ext) (ctx : Ctx) (loc dest : Point)
    (t : String) (s0 s1 : Sect) (g2 : Graph)
    (h1 : ctx.ud.loc = some loc)
    (h2 : ctx.ud.target = some t) (h2b : t ≠ "")
    (h3 : ext.geocode t = .ok dest)
    (h4 : get_directions ext ctx.graph loc.swap dest = (.ok [s0, s1], g2)) :
    (compute_route ext ctx).2 = none ∧
    (compute_route ext ctx).1.sent = ctx.sent ++
      [Event.computingMsg, Event.photo,
       Event.tooNearMsg (pythonRound
         (ext.hav loc.swap s0.mid.swap + ext.hav s0.mid.swap dest))] ∧
    (compute_route ext ctx).1.timerOn = ctx.timerOn := by
  have hp : pyGet [s0, s1] (0 : ℤ) = some s0 := rfl
  simp [compute_route, compute_route_body, h1, h2, h2b, h3, send, h4, hp,
    compute_route_handle]

set_option maxRecDepth 100000 in
/-- C1 witness: on the one-node network the built route has two sections and
the bot reports TooNear with distance 0 without starting the timer. -/
theorem c1_too_near_no_delivery_w :
    (compute_route wExt wCtx).2 = none ∧
    (compute_route wExt wCtx).1.sent =
      [Event.computingMsg, Event.photo, Event.tooNearMsg 0] ∧
    (compute_route wExt wCtx).1.timerOn = false := by
  have h := c1_too_near_no_delivery wExt wCtx (0, 0) (1/1000, 0) "T" wS1 wS2 wG
    rfl rfl (by decide) rfl (by with_unfolding_all decide)
  refine ⟨h.1, ?_, ?_⟩
  · rw [h.2.1]
    have hd : pythonRound
        (wExt.hav ((0, 0) : Point).swap wS1.mid.swap +
          wExt.hav wS1.mid.swap (1/1000, 0)) = 0 := by
      with_unfolding_all decide
    rw [hd]
    rfl
  · rw [h.2.2]
    rfl

theorem getName_not_oob (n : Option (String ⊕ List String)) (e : PyError)
    (h : getName n = .error e) : e.isOOB = false := by
  rcases n with _ | (sv | lv)
  · simp [getName] at h
  · simp [getName] at h
  · rcases lv with _ | ⟨s2, l2⟩
    · simp [getName] at h
      subst h
      rfl
    · simp [getName] at h

theorem node_xy_not_oob (g : Graph) (i : NodeId) (e : PyError)
    (h : node_xy g i = .error e) : e.isOOB = false := by
  rcases hl : g.lookupNode i with _ | p
  · simp [node_xy, hl] at h
    subst h
    rfl
  · rcases p with _ | pt
    · simp [node_xy, hl] at h
      subst h
      rfl
    · simp [node_xy, hl] at h

theorem build_route_aux_not_oob (g : Graph) :
    ∀ (l : List NodeId) (a b : NodeId) (e : PyError),
      build_route_aux g a b l = .error e → e.isOOB = false := by
  intro l
  induction l with
  | nil =>
    intro a b e h
    simp [build_route_aux] at h
  | cons x xs ih =>
    intro a b e h
    rcases hsm : g.getEdgeData a b with _ | smE
    · simp [build_route_aux, hsm] at h
      subst h
      rfl
    · rcases hnm : getName smE.name with e2 | cn
      · simp [build_route_aux, hsm, hnm] at h
        subst h
        exact getName_not_oob _ _ hnm
      · rcases hmd : g.getEdgeData b x with _ | mdE
        · simp [build_route_aux, hsm, hnm, hmd] at h
          subst h
          rfl
        · rcases hnm2 : getName mdE.name with e2 | nn
          · simp [build_route_aux, hsm, hnm, hmd, hnm2] at h
            subst h
            exact getName_not_oob _ _ hnm2
          · rcases hld : g.lookupNode x with _ | dstA
            · simp [build_route_aux, hsm, hnm, hmd, hnm2, hld] at h
              subst h
              rfl
            · rcases hlm : g.lookupNode b with _ | mA
              · simp [build_route_aux, hsm, hnm, hmd, hnm2, hld, hlm] at h
                subst h
                rfl
              · rcases mA with _ | midC
                · simp [build_route_aux, hsm, hnm, hmd, hnm2, hld, hlm] at h
                  subst h
                  rfl
                · rcases hls : g.lookupNode a with _ | sA
                  · simp [build_route_aux, hsm, hnm, hmd, hnm2, hld, hlm, hls] at h
                    subst h
                    rfl
                  · rcases sA with _ | srcC
                    · simp [build_route_aux, hsm, hnm, hmd, hnm2, hld, hlm, hls] at h
                      subst h
                      rfl
                    · rcases hrec : build_route_aux g b x xs with e2 | sects
                      · simp [build_route_aux, hsm, hnm, hmd, hnm2, hld, hlm,
                          hls, hrec] at h
                        subst h
                        exact ih b x _ hrec
                      · simp [build_route_aux, hsm, hnm, hmd, hnm2, hld, hlm,
                          hls, hrec] at h

theorem build_route_not_oob (g : Graph) (path : List NodeId) (e : PyError)
    (h : build_route g path = .error e) : e.isOOB = false := by
  match path with
  | [] =>
    simp [build_route] at h
    subst h
    rfl
  | [p0] =>
    simp [build_route] at h
    subst h
    rfl
  | p0 :: p1 :: rest =>
    simp only [build_route] at h
    exact build_route_aux_not_oob g rest p0 p1 e h

theorem after_trim_not_oob (ext : Ext) (g : Graph) (sl dl : Point)
    (path1 : List NodeId) (e : PyError)
    (h : (get_directions_after_trim ext g sl dl path1).1 = .error e) :
    e.isOOB = false := by
  simp only [get_directions_after_trim] at h
  rcases hp3 : pyGet (splice path1) (-3 : ℤ) with _ | pm3
  · simp [hp3] at h
    subst h
    rfl
  · rcases hxy : node_xy (add_temp_nodes g sl dl) pm3 with e2 | origin
    · simp [hp3, hxy] at h
      subst h
      exact node_xy_not_oob _ _ _ hxy
    · rcases hp0 : pyGet (splice path1) (0 : ℤ) with _ | p0
      · simp [hp3, hxy, hp0] at h
        subst h
        rfl
      · rcases hp1 : pyGet (splice path1) (1 : ℤ) with _ | p1
        · simp [hp3, hxy, hp0, hp1] at h
          subst h
          rfl
        · rcases hpm2 : pyGet (splice path1) (-2 : ℤ) with _ | pm2
          · simp [hp3, hxy, hp0, hp1, hpm2] at h
            subst h
            rfl
          · rcases hpm1 : pyGet (splice path1) (-1 : ℤ) with _ | pm1
            · simp [hp3, hxy, hp0, hp1, hpm2, hpm1] at h
              subst h
              rfl
            · rcases hbr : build_route
                  (((add_temp_nodes g sl dl).addEdgeNX p0 p1
                      EdgeData.empty).addEdgeNX pm2 pm1 EdgeData.empty |>.addEdgeNX
                    pm3 pm2 { bearing := some (if pointLeB origin dl.swap
                      then ext.bearing origin dl.swap
                      else ext.bearing dl.swap origin) })
                  (splice path1) with e2 | route
              · simp [hp3, hxy, hp0, hp1, hpm2, hpm1, hbr] at h
                subst h
                exact build_route_not_oob _ _ _ hbr
              · simp [hp3, hxy, hp0, hp1, hpm2, hpm1, hbr] at h

/-- C9 amended: get_directions fails with the source out-of-bounds assert
exactly when the source snap distance is at least FARTHEST_NODE (the assert
uses strict less-than, so exactly 2000 m also fails); with the destination
assert when the source passes and the destination snap distance is at least
FARTHEST_NODE; and when both snap distances are strictly below FARTHEST_NODE
it proceeds past the asserts and no out-of-bounds failure can occur. -/
theorem c9_snap_bounds (ext : Ext) (g : Graph) (sl dl : Point) (sn dn : NodeId)
    (sd dd : ℚ)
    (hs : nearest_node ext.hav g sl = .ok (sn, sd))
    (hd : nearest_node ext.hav g dl = .ok (dn, dd)) :
    (FARTHEST_NODE ≤ sd → get_directions ext g sl dl = (.error .assertSrc, g)) ∧
    (sd < FARTHEST_NODE → FARTHEST_NODE ≤ dd →
      get_directions ext g sl dl = (.error .assertDst, g)) ∧
    (sd < FARTHEST_NODE → dd < FARTHEST_NODE →
      (get_directions ext g sl dl).1 ≠ .error PyError.assertSrc ∧
      (get_directions ext g sl dl).1 ≠ .error PyError.assertDst) := by
  refine ⟨fun h => ?_, fun h1 h2 => ?_, fun h1 h2 => ?_⟩
  · simp [get_directions, hs, not_lt.mpr h]
  · simp [get_directions, hs, hd, h1, not_lt.mpr h2]
  · simp only [get_directions, hs, hd]
    rw [if_pos h1, if_pos h2]
    rcases hsp : ext.shortestPath g sn dn with u | path0
    · simp [hsp]
    · simp only [hsp]
      constructor
      · intro hc
        have hx := after_trim_not_oob ext g sl dl _ _ hc
        simp [PyError.isOOB] at hx
      · intro hc
        have hx := after_trim_not_oob ext g sl dl _ _ hc
        simp [PyError.isOOB] at hx

set_option maxRecDepth 100000 in
/-- C9 witness: the snap distance of exactly 2000 m satisfies the amended
bound and get_directions fails with the source assert, leaving the graph
untouched. -/
theorem c9_snap_bounds_w :
    get_directions wExt c9G (0, 0) (0, 0) = (.error PyError.assertSrc, c9G) := by
  have h := c9_snap_bounds wExt c9G (0, 0) (0, 0) (NodeId.osm 0) (NodeId.osm 0)
    2000 2000 (by with_unfolding_all decide) (by with_unfolding_all decide)
  exact h.1 (by norm_num [FARTHEST_NODE])

theorem pyGet_mem {α : Type} (l : List α) (i : ℤ) (x : α)
    (h : pyGet l i = some x) : x ∈ l := by
  unfold pyGet at h
  split_ifs at h
  · exact List.get?_mem h
  · exact List.get?_mem h

theorem trim_src_subset (ext : Ext) (g : Graph) (path : List NodeId)
    (sn : NodeId) (sd : ℚ) (sl : Point) :
    ∀ n ∈ trim_src ext g path sn sd sl, n ∈ path := by
  intro n hn
  unfold trim_src at hn
  rcases ht : trim_src_attempt ext g path sn sd sl with u | b
  · rw [ht] at hn
    exact hn
  · rw [ht] at hn
    cases b
    · exact hn
    · exact List.drop_subset 1 path hn

theorem trim_dst_subset (ext : Ext) (g : Graph) (path : List NodeId)
    (dn : NodeId) (dd : ℚ) (dl : Point) :
    ∀ n ∈ trim_dst ext g path dn dd dl, n ∈ path := by
  intro n hn
  unfold trim_dst at hn
  rcases ht : trim_dst_attempt ext g path dn dd dl with u | b
  · rw [ht] at hn
    exact hn
  · rw [ht] at hn
    cases b
    · exact hn
    · exact List.dropLast_subset path hn

theorem hasNode_false_forall (g : Graph) (i : NodeId)
    (h : g.hasNode i = false) : ∀ q ∈ g.nodes, q.1 ≠ i := by
  simp only [Graph.hasNode, List.any_eq_false, decide_eq_true_eq] at h
  exact h

theorem add_temp_nodes_eq (g : Graph) (sl dl : Point)
    (h1 : g.hasNode NodeId.srcNode = false)
    (h2 : g.hasNode NodeId.dstNode = false)
    (h3 : g.hasNode NodeId.endNode = false) :
    add_temp_nodes g sl dl = Graph.mk
      (g.nodes ++ [(NodeId.srcNode, some sl.swap), (NodeId.dstNode, some dl.swap),
        (NodeId.endNode, none)]) g.edges := by
  simp only [Graph.hasNode] at h1 h2 h3
  simp [add_temp_nodes, Graph.addNode, Graph.hasNode, List.any_append, h1, h2, h3]

theorem addEdgeNX_of_hasNode (g : Graph) (u v : NodeId) (d : EdgeData)
    (hu : g.hasNode u = true) (hv : g.hasNode v = true) :
    g.addEdgeNX u v d = Graph.mk g.nodes (g.edges ++ [(u, v, d)]) := by
  simp [Graph.addEdgeNX, hu, hv]

theorem removeEdgesAux_eq_self (u v : NodeId)
    (l : List (NodeId × NodeId × EdgeData))
    (h : ∀ e2 ∈ l, ¬ (e2.1 = u ∧ e2.2.1 = v)) : removeEdgesAux u v l = l := by
  induction l with
  | nil => rfl
  | cons x xs ih =>
    rw [removeEdgesAux, if_neg (h x (by simp))]
    rw [ih fun e2 he => h e2 (by simp [he])]

theorem list_get_append2_left {α : Type} (l : List α) (b c : α) :
    (l ++ [b, c]).get? l.length = some b := by
  induction l with
  | nil => rfl
  | cons x xs ih => simpa using ih

theorem list_get_append2_right {α : Type} (l : List α) (b c : α) :
    (l ++ [b, c]).get? (l.length + 1) = some c := by
  induction l with
  | nil => rfl
  | cons x xs ih => simpa using ih

theorem splice_get_zero (l : List NodeId) :
    pyGet (splice l) 0 = some NodeId.srcNode := rfl

theorem splice_get_m1 (l : List NodeId) :
    pyGet (splice l) (-1) = some NodeId.endNode := by
  have hlen : (splice l).length = l.length + 3 := by simp [splice]
  unfold pyGet
  rw [if_neg (by norm_num), if_pos (by rw [hlen]; omega)]
  rw [hlen]
  show (NodeId.srcNode :: (l ++ [NodeId.dstNode, NodeId.endNode])).get?
    (l.length + 3 - (-(-1 : ℤ)).toNat) = some NodeId.endNode
  have harith : l.length + 3 - (-(-1 : ℤ)).toNat = (l.length + 1) + 1 := by
    omega
  rw [harith]
  simpa using list_get_append2_right l NodeId.dstNode NodeId.endNode

theorem splice_get_m2 (l : List NodeId) :
    pyGet (splice l) (-2) = some NodeId.dstNode := by
  have hlen : (splice l).length = l.length + 3 := by simp [splice]
  unfold pyGet
  rw [if_neg (by norm_num), if_pos (by rw [hlen]; omega)]
  rw [hlen]
  show (NodeId.srcNode :: (l ++ [NodeId.dstNode, NodeId.endNode])).get?
    (l.length + 3 - (-(-2 : ℤ)).toNat) = some NodeId.dstNode
  have harith : l.length + 3 - (-(-2 : ℤ)).toNat = l.length + 1 := by
    omega
  rw [harith]
  show ((l ++ [NodeId.dstNode, NodeId.endNode]).get? l.length) = some NodeId.dstNode
  exact list_get_append2_left l NodeId.dstNode NodeId.endNode

theorem cleanup_restores (g : Graph) (path1 : List NodeId) (p1x pm3x : NodeId)
    (nsl ndl : Option Point) (d1 d2 d3 : EdgeData)
    (hnodes : ∀ q ∈ g.nodes, q.1 ∉ tempIds)
    (hedges : ∀ e2 ∈ g.edges, e2.1 ∉ tempIds ∧ e2.2.1 ∉ tempIds) :
    cleanup (Graph.mk
        (g.nodes ++ [(NodeId.srcNode, nsl), (NodeId.dstNode, ndl),
          (NodeId.endNode, none)])
        (g.edges ++ [(NodeId.srcNode, p1x, d1)] ++
          [(NodeId.dstNode, NodeId.endNode, d2)] ++ [(pm3x, NodeId.dstNode, d3)]))
      (splice path1) = g := by
  have hn : (g.nodes ++ [(NodeId.srcNode, nsl), (NodeId.dstNode, ndl),
      (NodeId.endNode, none)]).filter (fun q => decide (q.1 ∉ tempIds)) = g.nodes := by
    rw [List.filter_append]
    rw [List.filter_eq_self.mpr fun a ha => by simpa using hnodes a ha]
    simp [tempIds]
  have he : (g.edges ++ [(NodeId.srcNode, p1x, d1)] ++
      [(NodeId.dstNode, NodeId.endNode, d2)] ++ [(pm3x, NodeId.dstNode, d3)]).filter
        (fun e2 => decide (e2.1 ∉ tempIds) && decide (e2.2.1 ∉ tempIds)) =
      g.edges := by
    rw [List.filter_append, List.filter_append, List.filter_append]
    rw [List.filter_eq_self.mpr fun a ha => by
      obtain ⟨x1, x2⟩ := hedges a ha
      simp [x1, x2]]
    simp [tempIds]
  have hrm1 : ∀ y, removeEdgesAux NodeId.srcNode y g.edges = g.edges := fun y =>
    removeEdgesAux_eq_self _ _ _ fun e2 he2 hc =>
      (hedges e2 he2).1 (by rw [hc.1]; simp [tempIds])
  have hrm2 : ∀ y, removeEdgesAux y NodeId.dstNode g.edges = g.edges := fun y =>
    removeEdgesAux_eq_self _ _ _ fun e2 he2 hc =>
      (hedges e2 he2).2 (by rw [hc.2]; simp [tempIds])
  have hrm3 : removeEdgesAux NodeId.dstNode NodeId.endNode g.edges = g.edges :=
    removeEdgesAux_eq_self _ _ _ fun e2 he2 hc =>
      (hedges e2 he2).1 (by rw [hc.1]; simp [tempIds])
  rcases hq1 : pyGet (splice path1) (1 : ℤ) with _ | y1 <;>
    rcases hq3 : pyGet (splice path1) (-3 : ℤ) with _ | y3 <;>
    simp only [cleanup, splice_get_zero, splice_get_m2, splice_get_m1, hq1, hq3,
      Graph.removeNodesFrom, Graph.removeEdgeOnce, hn, he, hrm1, hrm2, hrm3]

theorem after_trim_restores (ext : Ext) (g : Graph) (sl dl : Point)
    (path1 : List NodeId) (r : List Sect)
    (hfresh : freshTemps g)
    (hpath : ∀ n ∈ path1, g.hasNode n = true)
    (h : (get_directions_after_trim ext g sl dl path1).1 = .ok r) :
    (get_directions_after_trim ext g sl dl path1).2 = g := by
  obtain ⟨h1, h2, h3, hedge⟩ := hfresh
  have hadd := add_temp_nodes_eq g sl dl h1 h2 h3
  have hnodes : ∀ q ∈ g.nodes, q.1 ∉ tempIds := by
    intro q hq
    have a1 := hasNode_false_forall g NodeId.srcNode h1 q hq
    have a2 := hasNode_false_forall g NodeId.dstNode h2 q hq
    have a3 := hasNode_false_forall g NodeId.endNode h3 q hq
    simp [tempIds, a1, a2, a3]
  have hg1has : ∀ n ∈ splice path1, (add_temp_nodes g sl dl).hasNode n = true := by
    intro n hn
    rw [hadd]
    simp only [Graph.hasNode, List.any_append, Bool.or_eq_true]
    simp only [splice, List.mem_cons, List.mem_append] at hn
    rcases hn with rfl | hn | hn
    · right
      simp
    · left
      have := hpath n hn
      simpa [Graph.hasNode] using this
    · right
      simp only [List.mem_cons, List.not_mem_nil, or_false] at hn
      rcases hn with rfl | rfl <;> simp
  simp only [get_directions_after_trim] at h ⊢
  rcases hp3 : pyGet (splice path1) (-3 : ℤ) with _ | pm3
  · simp [hp3] at h
  · rcases hxy : node_xy (add_temp_nodes g sl dl) pm3 with e2 | origin
    · simp [hp3, hxy] at h
    · rcases hp0 : pyGet (splice path1) (0 : ℤ) with _ | p0
      · simp [hp3, hxy, hp0] at h
      · rcases hp1 : pyGet (splice path1) (1 : ℤ) with _ | p1
        · simp [hp3, hxy, hp0, hp1] at h
        · rcases hpm2 : pyGet (splice path1) (-2 : ℤ) with _ | pm2
          · simp [hp3, hxy, hp0, hp1, hpm2] at h
          · rcases hpm1 : pyGet (splice path1) (-1 : ℤ) with _ | pm1
            · simp [hp3, hxy, hp0, hp1, hpm2, hpm1] at h
            · have hp0v : p0 = NodeId.srcNode := by
                rw [splice_get_zero] at hp0
                injection hp0 with hv
                exact hv.symm
              have hpm2v : pm2 = NodeId.dstNode := by
                rw [splice_get_m2] at hpm2
                injection hpm2 with hv
                exact hv.symm
              have hpm1v : pm1 = NodeId.endNode := by
                rw [splice_get_m1] at hpm1
                injection hpm1 with hv
                exact hv.symm
              have hmem1 : (add_temp_nodes g sl dl).hasNode p1 = true :=
                hg1has p1 (pyGet_mem _ _ _ hp1)
              have hmem3 : (add_temp_nodes g sl dl).hasNode pm3 = true :=
                hg1has pm3 (pyGet_mem _ _ _ hp3)
              have hmem0 : (add_temp_nodes g sl dl).hasNode p0 = true :=
                hg1has p0 (pyGet_mem _ _ _ hp0)
              have hmem2 : (add_temp_nodes g sl dl).hasNode pm2 = true :=
                hg1has pm2 (pyGet_mem _ _ _ hpm2)
              have hmem1m : (add_temp_nodes g sl dl).hasNode pm1 = true :=
                hg1has pm1 (pyGet_mem _ _ _ hpm1)
              have hE1 := addEdgeNX_of_hasNode (add_temp_nodes g sl dl) p0 p1
                EdgeData.empty hmem0 hmem1
              have hE2 := addEdgeNX_of_hasNode
                (Graph.mk (add_temp_nodes g sl dl).nodes
                  ((add_temp_nodes g sl dl).edges ++ [(p0, p1, EdgeData.empty)]))
                pm2 pm1 EdgeData.empty hmem2 hmem1m
              have hE3 := addEdgeNX_of_hasNode
                (Graph.mk (add_temp_nodes g sl dl).nodes
                  ((add_temp_nodes g sl dl).edges ++ [(p0, p1, EdgeData.empty)] ++
                    [(pm2, pm1, EdgeData.empty)]))
                pm3 pm2 { bearing := some (if pointLeB origin dl.swap
                    then ext.bearing origin dl.swap
                    else ext.bearing dl.swap origin) } hmem3 hmem2
              rcases hbr : build_route
                  (((add_temp_nodes g sl dl).addEdgeNX p0 p1
                      EdgeData.empty).addEdgeNX pm2 pm1 EdgeData.empty |>.addEdgeNX
                    pm3 pm2 { bearing := some (if pointLeB origin dl.swap
                      then ext.bearing origin dl.swap
                      else ext.bearing dl.swap origin) })
                  (splice path1) with e2 | route
              · simp [hp3, hxy, hp0, hp1, hpm2, hpm1, hbr] at h
              · simp only [hp3, hxy, hp0, hp1, hpm2, hpm1, hbr]
                rw [hE1, hE2, hE3]
                rw [hp0v, hpm2v, hpm1v]
                subst hp0v
                subst hpm2v
                subst hpm1v
                rw [hadd]
                exact cleanup_restores g path1 p1 pm3 (some sl.swap) (some dl.swap)
                  EdgeData.empty EdgeData.empty _ hnodes hedge

/-- C8 amended: get_directions does mutate the shared street network while it
runs (it adds the two anchors and the terminal sentinel as real nodes and
edges), but on every successful call it removes exactly what it added, so the
graph handed back equals the input graph whenever the temporary keys are fresh
and the path search returns nodes of the graph. -/
theorem c8_graph_restored (ext : Ext) (g : Graph) (sl dl : Point) (r : List Sect)
    (hfresh : freshTemps g)
    (hsp : ∀ a b p, ext.shortestPath g a b = .ok p → ∀ n ∈ p, g.hasNode n = true)
    (h : (get_directions ext g sl dl).1 = .ok r) :
    (get_directions ext g sl dl).2 = g := by
  simp only [get_directions] at h ⊢
  rcases hs : nearest_node ext.hav g sl with e | p
  · simp [hs] at h
  · obtain ⟨sn, sd⟩ := p
    simp only [hs] at h ⊢
    by_cases hc1 : sd < FARTHEST_NODE
    · rw [if_pos hc1] at h ⊢
      rcases hd : nearest_node ext.hav g dl with e | p2
      · simp [hd] at h
      · obtain ⟨dn, dd⟩ := p2
        simp only [hd] at h ⊢
        by_cases hc2 : dd < FARTHEST_NODE
        · rw [if_pos hc2] at h ⊢
          rcases hsp2 : ext.shortestPath g sn dn with u | path0
          · simp [hsp2] at h
          · simp only [hsp2] at h ⊢
            refine after_trim_restores ext g sl dl _ r hfresh ?_ h
            intro n hn
            refine hsp sn dn path0 hsp2 n ?_
            by_cases hlen : path0.length > 1
            · rw [if_pos hlen] at hn
              exact trim_src_subset ext g path0 sn sd sl n
                (trim_dst_subset ext g _ dn dd dl n hn)
            · rw [if_neg hlen] at hn
              exact hn
        · rw [if_neg hc2] at h
          simp at h
    · rw [if_neg hc1] at h
      simp at h

set_option maxRecDepth 100000 in
/-- C8 witness: the successful run on the one-node network hands back exactly
the input graph. -/
theorem c8_graph_restored_w :
    freshTemps wG ∧ (get_directions wExt wG (0, 0) (1/1000, 0)).2 = wG := by
  constructor
  · refine ⟨by decide, by decide, by decide, ?_⟩
    intro e2 he2
    simp [wG] at he2
  · refine c8_graph_restored wExt wG (0, 0) (1/1000, 0) [wS1, wS2]
      ⟨by decide, by decide, by decide, ?_⟩ ?_ ?_
    · intro e2 he2
      simp [wG] at he2
    · intro a b p hp n hn
      simp only [wExt] at hp
      injection hp with hv
      subst hv
      simp only [List.mem_singleton] at hn
      subst hn
      decide
    · with_unfolding_all decide

end GuideBot
